import Mathlib

/-!
Verification of the TaskFlowAI browser client: the streaming plan-request
controller (`handleSubmit` in the App component), the text renderer
(`formatOutput`), the diagram renderer (`WorkflowGraph` with
`getPriorityColor`), and the `ErrorBoundary` component.  The definitions
below are shallow embeddings of the JavaScript source.  JavaScript strings
are modelled by `String`; the string primitives the source uses
(`split('\n')`, `startsWith('data: ')`, `slice(6)`, `trim()`) are embedded
as structurally recursive functions over the character list so that every
theorem can be evaluated on concrete inputs by the kernel.
-/

namespace TaskFlowAI

/-- The `summary` object inside `formatted_output`:
`{ total_tasks, estimated_duration_days }`. -/
structure Summary where
  total_tasks : Nat
  estimated_duration_days : Nat
  deriving Repr, DecidableEq

/-- The `formatted_output` object of a plan:
`{ summary, markdown, mermaid_gantt }`.  Each field may be absent
(`undefined`/`null` in the JSON), modelled with `Option`; a present but
empty string is distinct from an absent field because JavaScript
truthiness tests (`if (output.markdown)`) treat `""` as falsy. -/
structure FormattedOutput where
  summary : Option Summary
  markdown : Option String
  mermaid_gantt : Option String
  deriving Repr, DecidableEq

/-- One `dependency_tasks` entry:
`{ id, name, estimated_duration_days, category, priority }`. -/
structure DependencyTask where
  id : Nat
  name : String
  estimated_duration_days : Nat
  category : String
  priority : String
  deriving Repr, DecidableEq

/-- The plan object carried by a `completed` event (`data.data` in the
source): `{ formatted_output, dependency_tasks }`, both fields possibly
absent. -/
structure PlanResult where
  formatted_output : Option FormattedOutput
  dependency_tasks : Option (List DependencyTask)
  deriving Repr, DecidableEq

/-- A decoded status event: the result of `JSON.parse` on the payload of a
`data: ` line.  The source dispatches on `data.status` being `"running"`,
`"completed"` or `"error"`; a parsed object with any other status takes no
branch of the `if/else if` chain, modelled by `other`. -/
inductive StatusEvent where
  | running (agent : String) (message : String)
  | completed (data : PlanResult)
  | error (message : String)
  | other
  deriving Repr, DecidableEq

/-- The UI state mutated by `handleSubmit`: the `useState` cells
`loading`, `planData`, `error`, `currentAgent`, `agentMessage`. -/
structure UIState where
  loading : Bool
  planData : Option PlanResult
  error : Option String
  currentAgent : Option String
  agentMessage : String
  deriving Repr, DecidableEq

/-- The idle page state: the initial values of the five `useState` cells. -/
def initialState : UIState :=
  { loading := false
    planData := none
    error := none
    currentAgent := none
    agentMessage := "" }

/-! ### JavaScript string primitives used by the controller -/

/-- `chunk.split('\n')` on the character list: every `'\n'` separates two
pieces, so adjacent separators and leading/trailing separators produce
empty pieces, and the empty string splits to one empty piece — exactly the
semantics of JavaScript `String.prototype.split` with a one-character
separator. -/
def splitNlChars : List Char → List (List Char)
  | [] => [[]]
  | c :: rest =>
    let r := splitNlChars rest
    if c = '\n' then [] :: r
    else
      match r with
      | [] => [[c]]
      | s :: tail => (c :: s) :: tail

/-- `chunk.split('\n')` as a function on strings. -/
def splitNl (s : String) : List String :=
  (splitNlChars s.data).map String.mk

/-- `startsWithChars p cs` is JavaScript `cs.startsWith(p)` on character
lists. -/
def startsWithChars : List Char → List Char → Bool
  | [], _ => true
  | _ :: _, [] => false
  | p :: ps, c :: cs => p = c && startsWithChars ps cs

/-- `line.startsWith('data: ')`. -/
def startsWithData (line : String) : Bool :=
  startsWithChars "data: ".data line.data

/-- `line.slice(6)`: drop the 6-character prefix. -/
def sliceSix (line : String) : String :=
  String.mk (line.data.drop 6)

/-- The whitespace characters relevant to the inputs of this client;
JavaScript `trim()` strips these (among other Unicode whitespace) from
both ends. -/
def isWhitespaceChar (c : Char) : Bool :=
  c = ' ' || c = '\t' || c = '\n' || c = '\r'

/-- `input.trim()`. -/
def jsTrim (s : String) : String :=
  String.mk (((s.data.dropWhile isWhitespaceChar).reverse.dropWhile
    isWhitespaceChar).reverse)

/-! ### The streaming read loop of handleSubmit -/

/-- The dispatch of one decoded event, from the `if/else if` chain on
`data.status` in `handleSubmit` (lines 177-188 of the App source):
`running` sets `currentAgent`/`agentMessage`; `completed` clears them and
stores `data.data` in `planData`; `error` stores the message in `error`
and clears the indicator; any other status changes nothing. -/
def dispatch (st : UIState) : StatusEvent → UIState
  | .running a m => { st with currentAgent := some a, agentMessage := m }
  | .completed d =>
      { st with currentAgent := none, agentMessage := "", planData := some d }
  | .error m =>
      { st with error := some m, currentAgent := none, agentMessage := "" }
  | .other => st

/-- Processing of one line of a chunk (the body of the `for` loop over
`lines`): lines starting with `data: ` have the rest parsed; a parse
failure (`decode` returns `none`, the `catch` branch at line 189) only
logs to the console and leaves the UI state unchanged.  `decode` is a
parameter standing for the external `JSON.parse` builtin composed with
the status-field shape of the dispatch. -/
def handleLine (decode : String → Option StatusEvent) (st : UIState)
    (line : String) : UIState :=
  if startsWithData line then
    match decode (sliceSix line) with
    | some ev => dispatch st ev
    | none => st
  else st

/-- The read loop of `handleSubmit` (lines 165-194): each `reader.read()`
chunk is decoded to text and split on `'\n'` by itself — the source keeps
no carry-over buffer between chunks — and each resulting line is handled
in order. -/
def readLoop (decode : String → Option StatusEvent) (st : UIState) :
    List String → UIState
  | [] => st
  | chunk :: rest =>
      readLoop decode ((splitNl chunk).foldl (handleLine decode) st) rest

/-- The event one line contributes: the decoded payload of a `data: ` line
when it parses, nothing otherwise. -/
def lineEvent (decode : String → Option StatusEvent) (line : String) :
    Option StatusEvent :=
  if startsWithData line then decode (sliceSix line) else none

/-- The events one chunk contributes, in line order, at most one per
line. -/
def chunkEvents (decode : String → Option StatusEvent) (chunk : String) :
    List StatusEvent :=
  (splitNl chunk).filterMap (lineEvent decode)

/-- All events a chunk sequence contributes, in stream order. -/
def streamEvents (decode : String → Option StatusEvent) :
    List String → List StatusEvent
  | [] => []
  | chunk :: rest => chunkEvents decode chunk ++ streamEvents decode rest

/-! ### The submit handler -/

/-- The outcome of the `fetch` call as far as the controller observes it:
either the awaited promise rejects (network failure — the `catch` branch),
or a response arrives with a status code and a stream of chunks. -/
inductive FetchResult where
  | networkError
  | response (status : Nat) (chunks : List String)

/-- `response.ok` per the Fetch standard: status in the inclusive range
200-299. -/
def responseOk (status : Nat) : Bool :=
  200 ≤ status && status < 300

/-- The validation message set when the trimmed input is empty. -/
def validationMessage : String := "Please enter a project description"

/-- The fixed message set by the `catch` branch of `handleSubmit`. -/
def connectFailedMessage : String :=
  "Failed to connect to the server. Make sure FastAPI is running."

/-- The error message the non-ok branch throws:
``throw new Error(`HTTP error! status: ${response.status}`)``.  It is
caught by the surrounding `catch`, which only logs it to the console. -/
def httpThrownMessage (status : Nat) : String :=
  "HTTP error! status: " ++ toString status

/-- `handleSubmit` (lines 135-203 of the App source) as a function from
the current UI state, the input value and the observed fetch outcome to
the final UI state: the empty-trim guard returns after setting only the
validation error; otherwise loading/error/planData/indicator are
initialized, the response is checked for `ok` (a non-ok response throws
before the body reader is ever created), the stream is read, any thrown
or rejected error lands in the `catch` branch which sets the fixed
connectivity message and clears the indicator, and `finally` clears
`loading`. -/
def handleSubmit (decode : String → Option StatusEvent) (st : UIState)
    (projectInput : String) (fetch : FetchResult) : UIState :=
  if jsTrim projectInput = "" then
    { st with error := some validationMessage }
  else
    let st1 := { st with
      loading := true
      error := none
      planData := none
      currentAgent := some "system"
      agentMessage := "Connecting to agents..." }
    let st2 :=
      match fetch with
      | .networkError =>
          { st1 with
            error := some connectFailedMessage
            currentAgent := none
            agentMessage := "" }
      | .response status chunks =>
          if responseOk status then readLoop decode st1 chunks
          else
            { st1 with
              error := some connectFailedMessage
              currentAgent := none
              agentMessage := "" }
    { st2 with loading := false }

/-! ### The text renderer formatOutput -/

/-- `formatOutput` (lines 205-232 of the App source), exactly as the code
builds the string: the guard `if (!data || !data.formatted_output)`
returns the placeholder; then each of the three sections is appended to
`result` under its own truthiness test (`if (output.summary)`,
`if (output.markdown)`, `if (output.mermaid_gantt)` — an absent field or
a present empty string is falsy and appends nothing). -/
def formatOutput (data : Option PlanResult) : String :=
  match data with
  | none => "No output available"
  | some d =>
    match d.formatted_output with
    | none => "No output available"
    | some output =>
      let result := ""
      let result :=
        match output.summary with
        | some s =>
            result ++ "PROJECT SUMMARY\n" ++ "Total Tasks: " ++
              toString s.total_tasks ++ "\n" ++ "Estimated Duration: " ++
              toString s.estimated_duration_days ++ " days\n\n"
        | none => result
      let result :=
        match output.markdown with
        | some m => if m = "" then result else result ++ m
        | none => result
      let result :=
        match output.mermaid_gantt with
        | some g =>
            if g = "" then result
            else
              result ++ "\n\nGANTT CHART (Mermaid.js)\n" ++ "```mermaid\n" ++
                g ++ "\n```"
        | none => result
      result

/-- The summary section of the output, in isolation. -/
def summarySection : Option Summary → String
  | none => ""
  | some s =>
      "PROJECT SUMMARY\n" ++ "Total Tasks: " ++ toString s.total_tasks ++
        "\n" ++ "Estimated Duration: " ++
        toString s.estimated_duration_days ++ " days\n\n"

/-- The markdown section of the output, in isolation (a present empty
string renders nothing, like any falsy field). -/
def markdownSection : Option String → String
  | none => ""
  | some m => m

/-- The gantt section of the output, in isolation: the diagram source
wrapped in the fixed delimiter, or nothing when absent or falsy. -/
def ganttSection : Option String → String
  | none => ""
  | some g =>
      if g = "" then ""
      else "\n\nGANTT CHART (Mermaid.js)\n" ++ "```mermaid\n" ++ g ++ "\n```"

/-! ### The diagram renderer WorkflowGraph -/

/-- The visible content of one rendered task node: the 1-based step
number, the circle color from `getPriorityColor(task.priority)`, the task
name, the duration/category line, and whether a directional arrow follows
(`index < tasks.length - 1`). -/
structure TaskNode where
  number : Nat
  color : String
  name : String
  duration : Nat
  category : String
  hasArrow : Bool
  deriving Repr, DecidableEq

/-- What the WorkflowGraph component renders: either the fixed
placeholder text or the ordered chain of task nodes. -/
inductive GraphView where
  | placeholder (text : String)
  | chain (nodes : List TaskNode)
  deriving Repr, DecidableEq

/-- `getPriorityColor` (lines 104-111 of WorkflowGraph.jsx): the fixed
priority-to-color lookup with a neutral-gray default. -/
def getPriorityColor (priority : String) : String :=
  if priority = "high" then "#ef4444"
  else if priority = "medium" then "#f59e0b"
  else if priority = "low" then "#10b981"
  else "#6b7280"

/-- The body of `tasks.map((task, index) => ...)` in WorkflowGraph.jsx:
`i` is the current index and `total` the length of the whole task list,
so the arrow test is `i < total - 1`. -/
def renderTasks (total : Nat) : Nat → List DependencyTask → List TaskNode
  | _, [] => []
  | i, t :: rest =>
      { number := i + 1
        color := getPriorityColor t.priority
        name := t.name
        duration := t.estimated_duration_days
        category := t.category
        hasArrow := decide (i < total - 1) } :: renderTasks total (i + 1) rest

/-- `WorkflowGraph` (lines 3-102 of WorkflowGraph.jsx): the guard
`if (!planData || !planData.dependency_tasks ||
planData.dependency_tasks.length === 0)` renders the fixed placeholder;
otherwise each task is rendered in array order. -/
def WorkflowGraph (planData : Option PlanResult) : GraphView :=
  match planData with
  | none => .placeholder "No tasks to visualize"
  | some pd =>
    match pd.dependency_tasks with
    | none => .placeholder "No tasks to visualize"
    | some tasks =>
      if tasks.length = 0 then .placeholder "No tasks to visualize"
      else .chain (renderTasks tasks.length 0 tasks)

/-! ### The ErrorBoundary component -/

/-- The state of the ErrorBoundary class: `{ hasError, error }`, where
`error` holds the message of the caught exception. -/
structure BoundaryState where
  hasError : Bool
  error : Option String
  deriving Repr, DecidableEq

/-- The constructor's initial state: `{ hasError: false, error: null }`. -/
def boundaryInit : BoundaryState :=
  { hasError := false, error := none }

/-- `static getDerivedStateFromError(error)` (lines 11-13 of the App
source): record the exception and switch to the fallback branch. -/
def getDerivedStateFromError (e : String) : BoundaryState :=
  { hasError := true, error := some e }

/-- The reset performed by the Try Again button's `onClick`:
`this.setState({ hasError: false, error: null })`. -/
def boundaryReset (_ : BoundaryState) : BoundaryState :=
  { hasError := false, error := none }

/-- What the boundary's `render()` produces: its children, or the inline
fallback panel showing the caught error's message next to the Try Again
button. -/
inductive Rendered (α : Type) where
  | content (a : α)
  | panel (message : String)
  deriving Repr, DecidableEq

/-- One render pass of the boundary under React's error-boundary
protocol: with `hasError` set, `render()` returns the fallback panel
(showing `this.state.error?.message`) and the children are not rendered;
otherwise the child subtree is rendered, and if it throws, React calls
`getDerivedStateFromError` and re-renders the boundary, which then shows
the panel.  The child render attempt is passed as an `Except` since a
rendering exception of the subtree is an input to the boundary, not
something it produces. -/
def boundaryStep {α : Type} (st : BoundaryState)
    (child : Except String α) : BoundaryState × Rendered α :=
  if st.hasError then (st, .panel (st.error.getD ""))
  else
    match child with
    | .ok v => (st, .content v)
    | .error e =>
        let st2 := getDerivedStateFromError e
        (st2, .panel (st2.error.getD ""))

/-! ### A concrete event decoder for evaluating the theorems

The payload of a frame is parsed by the external `JSON.parse` builtin,
which is not repository code; the controller theorems are therefore
generic in the decoding function.  To evaluate them at concrete streams
we fix one concrete decoder for the subset of JSON the protocol's
`running`/`error` frames use: a flat object of string-valued fields with
no whitespace or escape sequences.  On that subset it agrees with
`JSON.parse` composed with the status-field dispatch shape; everything
outside the subset (including truncated JSON, which `JSON.parse`
rejects) is mapped to a decode failure or, for an unrecognized `status`,
to the no-op event. -/

/-- The opening-brace character, `{`. -/
def lbrace : Char := Char.ofNat 123

/-- The closing-brace character, `}`. -/
def rbrace : Char := Char.ofNat 125

/-- Scans the body of a JSON string literal up to its closing quote (no
escape sequences), returning the content and the remaining input. -/
def scanStr : List Char → Option (List Char × List Char)
  | [] => none
  | c :: rest =>
      if c = '"' then some ([], rest)
      else (scanStr rest).map fun p => (c :: p.1, p.2)

/-- Parses `"key":"value"` pairs separated by commas, up to a closing
brace that must end the input.  The fuel argument bounds the recursion
by the input length. -/
def parsePairs : Nat → List Char → Option (List (String × String))
  | 0, _ => none
  | fuel + 1, cs =>
      match cs with
      | '"' :: rest =>
          match scanStr rest with
          | some (k, ':' :: '"' :: rest2) =>
              match scanStr rest2 with
              | some (v, rest3) =>
                  match rest3 with
                  | ',' :: rest4 =>
                      match parsePairs fuel rest4 with
                      | some kvs => some ((String.mk k, String.mk v) :: kvs)
                      | none => none
                  | [c] =>
                      if c = rbrace then some [(String.mk k, String.mk v)]
                      else none
                  | _ => none
              | none => none
          | _ => none
      | _ => none

/-- The concrete decoder: a flat JSON object is parsed and then examined
the way the dispatch chain examines the parsed value — a `running`
status with its `agent`/`message` fields, an `error` status with its
`message` field, anything else a no-op.  Well-formed protocol frames
always carry those fields; frames outside the modelled subset decode to
`none`, as truncated JSON does under `JSON.parse`. -/
def miniDecode (s : String) : Option StatusEvent :=
  match s.data with
  | c :: rest =>
      if c = lbrace then
        match parsePairs (rest.length + 1) rest with
        | none => none
        | some kvs =>
            match List.lookup "status" kvs with
            | some st =>
                if st = "running" then
                  match List.lookup "agent" kvs, List.lookup "message" kvs with
                  | some a, some m => some (.running a m)
                  | _, _ => some .other
                else if st = "error" then
                  match List.lookup "message" kvs with
                  | some m => some (.error m)
                  | none => some .other
                else some .other
            | none => some .other
      else none
  | [] => none

/-- The two independently rendered output regions of the App page that
C9 is about: the textual report (the `pre` with `formatOutput(planData)`)
and the boundary-wrapped WorkflowGraph card. -/
structure PageView where
  report : String
  graph : Rendered GraphView
  deriving Repr, DecidableEq

/-- The part of `App`'s render (lines 275-314) relevant to the boundary:
the report is rendered outside the boundary, the WorkflowGraph subtree
inside it; `graphChild` is the attempt to render `WorkflowGraph planData`,
which may throw. -/
def renderApp (planData : Option PlanResult) (bst : BoundaryState)
    (graphChild : Except String GraphView) : BoundaryState × PageView :=
  let p := boundaryStep bst graphChild
  (p.1, { report := formatOutput planData, graph := p.2 })

/-! ### Concrete frames used to evaluate the controller theorems -/

/-- A well-formed `running` frame. -/
def runningFrameA : String :=
  "data: \x7b\"status\":\"running\",\"agent\":\"system\",\"message\":\"a\"\x7d"

/-- A well-formed `error` frame. -/
def errorFrameBad : String :=
  "data: \x7b\"status\":\"error\",\"message\":\"bad\"\x7d"

/-- A frame whose payload is truncated JSON, which every JSON parser
rejects. -/
def malformedFrame : String := "data: \x7boops"

/-- A well-formed `error` frame used by the chunk-boundary
counterexample. -/
def errorFrameX : String :=
  "data: \x7b\"status\":\"error\",\"message\":\"x\"\x7d"

/-! ### Helper lemmas about the read loop -/

/-- One line's processing is the dispatch of that line's event, when it
has one. -/
theorem handleLine_eq_lineEvent (decode : String → Option StatusEvent)
    (st : UIState) (l : String) :
    handleLine decode st l =
      match lineEvent decode l with
      | some ev => dispatch st ev
      | none => st := by
  unfold handleLine lineEvent
  cases h : startsWithData l <;> simp [h]

/-- Folding the line handler over a list of lines dispatches exactly the
events those lines contribute, in order. -/
theorem foldl_handleLine_eq (decode : String → Option StatusEvent) :
    ∀ (lines : List String) (st : UIState),
      lines.foldl (handleLine decode) st
        = (lines.filterMap (lineEvent decode)).foldl dispatch st := by
  intro lines
  induction lines with
  | nil => intro st; rfl
  | cons l rest ih =>
      intro st
      rw [List.foldl_cons, List.filterMap_cons, handleLine_eq_lineEvent]
      cases h : lineEvent decode l <;> simp [h, ih]

/-! ### C1 -/

/-- C1 (amended): the controller splits each decoded chunk into lines by
itself, not the accumulated text; the read loop dispatches, in stream
order, exactly the events of those lines of each chunk that begin with
`data: ` and whose remainder (after the 6-character prefix) decodes —
each such frame once.  Consequently a frame lying entirely inside one
chunk is decoded and dispatched exactly once, but the guarantee is
per-chunk: a frame whose text spans a chunk boundary is not dispatched
(see the counterexample). -/
theorem read_loop_per_chunk_dispatch (decode : String → Option StatusEvent)
    (chunks : List String) (st : UIState) :
    readLoop decode st chunks = (streamEvents decode chunks).foldl dispatch st := by
  induction chunks generalizing st with
  | nil => rfl
  | cons c rest ih =>
      have h1 : readLoop decode st (c :: rest)
          = readLoop decode ((splitNl c).foldl (handleLine decode) st) rest := rfl
      have h2 : streamEvents decode (c :: rest)
          = chunkEvents decode c ++ streamEvents decode rest := rfl
      rw [h1, ih, h2, List.foldl_append, foldl_handleLine_eq]
      rfl

/-- C1 counterexample: the same byte stream, partitioned differently into
chunks, loses the frame.  Delivered in one chunk, the `error` frame is
dispatched; delivered split just after `"dat"`, neither chunk's lines
start with `data: ` (the first chunk's only line is `dat`, the second's
is `a: ...`), so no event is dispatched at all and the UI state is left
untouched — refuting dispatch "regardless of how the underlying byte
stream is partitioned into chunks". -/
theorem chunk_boundary_frame_dropped :
    ("dat" ++ "a: \x7b\"status\":\"error\",\"message\":\"x\"\x7d" : String)
        = errorFrameX ∧
    streamEvents miniDecode [errorFrameX] = [StatusEvent.error "x"] ∧
    streamEvents miniDecode
        ["dat", "a: \x7b\"status\":\"error\",\"message\":\"x\"\x7d"] = [] ∧
    readLoop miniDecode initialState
        ["dat", "a: \x7b\"status\":\"error\",\"message\":\"x\"\x7d"]
      = initialState ∧
    readLoop miniDecode initialState [errorFrameX]
      = { initialState with error := some "x" } := by
  refine ⟨rfl, ?_, ?_, ?_, ?_⟩ <;> decide

/-! ### C2 -/

/-- C2: a frame with malformed JSON (a `data: ` line whose payload fails
to decode — the `catch` branch only logs it) changes no UI state, and a
line sequence containing it folds to the same state, and contributes the
same events, as the sequence with that frame deleted: the frames before
and after it are decoded and dispatched exactly as they would be without
it, and the loop is not aborted. -/
theorem malformed_frame_isolated (decode : String → Option StatusEvent)
    (st : UIState) (pre post : List String) (bad : String)
    (hb : startsWithData bad = true)
    (hd : decode (sliceSix bad) = none) :
    handleLine decode st bad = st ∧
    (pre ++ bad :: post).foldl (handleLine decode) st
      = (pre ++ post).foldl (handleLine decode) st ∧
    (pre ++ bad :: post).filterMap (lineEvent decode)
      = (pre ++ post).filterMap (lineEvent decode) := by
  have hline : ∀ s : UIState, handleLine decode s bad = s := by
    intro s
    unfold handleLine
    simp [hb, hd]
  have hev : lineEvent decode bad = none := by
    unfold lineEvent
    simp [hb, hd]
  refine ⟨hline st, ?_, ?_⟩
  · rw [List.foldl_append, List.foldl_append, List.foldl_cons, hline]
  · rw [List.filterMap_append, List.filterMap_append, List.filterMap_cons, hev]

/-- Witness for C2: the malformed frame `data: \x7boops` between a valid
`running` frame and a valid `error` frame is skipped with no state
change, and the surrounding frames contribute exactly as without it. -/
theorem malformed_frame_isolated_witness :
    startsWithData malformedFrame = true ∧
    miniDecode (sliceSix malformedFrame) = none ∧
    (handleLine miniDecode initialState malformedFrame = initialState ∧
     ([runningFrameA] ++ malformedFrame :: [errorFrameBad]).foldl
        (handleLine miniDecode) initialState
      = ([runningFrameA] ++ [errorFrameBad]).foldl
          (handleLine miniDecode) initialState ∧
     ([runningFrameA] ++ malformedFrame :: [errorFrameBad]).filterMap
        (lineEvent miniDecode)
      = ([runningFrameA] ++ [errorFrameBad]).filterMap
          (lineEvent miniDecode)) :=
  ⟨by decide, by decide,
    malformed_frame_isolated miniDecode initialState [runningFrameA]
      [errorFrameBad] malformedFrame (by decide) (by decide)⟩

/-! ### C3 -/

/-- C3: dispatching `running` updates only the transient agent indicator
(`currentAgent` and `agentMessage`) and leaves `planData` (as well as
`error` and `loading`) untouched; dispatching `completed` clears the
indicator and stores the attached data as the active plan; and for the
sequence `[running(system,"a"), running(planner,"b"), completed(d)]` the
final state has no transient indicator and `planData = d`. -/
theorem running_completed_dispatch (st : UIState) (a m : String)
    (d : PlanResult) :
    (dispatch st (.running a m)).currentAgent = some a ∧
    (dispatch st (.running a m)).agentMessage = m ∧
    (dispatch st (.running a m)).planData = st.planData ∧
    (dispatch st (.running a m)).error = st.error ∧
    (dispatch st (.running a m)).loading = st.loading ∧
    (dispatch st (.completed d)).currentAgent = none ∧
    (dispatch st (.completed d)).agentMessage = "" ∧
    (dispatch st (.completed d)).planData = some d ∧
    (dispatch st (.completed d)).error = st.error ∧
    (dispatch st (.completed d)).loading = st.loading ∧
    ([StatusEvent.running "system" "a", StatusEvent.running "planner" "b",
        StatusEvent.completed d].foldl dispatch st).currentAgent = none ∧
    ([StatusEvent.running "system" "a", StatusEvent.running "planner" "b",
        StatusEvent.completed d].foldl dispatch st).agentMessage = "" ∧
    ([StatusEvent.running "system" "a", StatusEvent.running "planner" "b",
        StatusEvent.completed d].foldl dispatch st).planData = some d :=
  ⟨rfl, rfl, rfl, rfl, rfl, rfl, rfl, rfl, rfl, rfl, rfl, rfl, rfl⟩

/-! ### C4 -/

/-- C4: dispatching `error` sets the active error to the event's message
and clears the transient indicator, and changes nothing else — `planData`
and `loading` keep their values, so a plan stored by an earlier
`completed` event in the same stream remains in place. -/
theorem error_event_dispatch (st : UIState) (m : String) (d : PlanResult) :
    (dispatch st (.error m)).error = some m ∧
    (dispatch st (.error m)).currentAgent = none ∧
    (dispatch st (.error m)).agentMessage = "" ∧
    (dispatch st (.error m)).planData = st.planData ∧
    (dispatch st (.error m)).loading = st.loading ∧
    (dispatch (dispatch st (.completed d)) (.error m)).planData = some d :=
  ⟨rfl, rfl, rfl, rfl, rfl, rfl⟩

/-! ### C5 -/

/-- C5 (amended): for every response whose status is outside the success
range, the request fails without the stream ever being read (the result
does not depend on the chunks), the thrown error carries the status code
but is only logged — the user-visible message is the fixed connectivity
string — and the terminal state has no plan, no indicator and
`loading = false`. -/
theorem transport_error_fixed_message (decode : String → Option StatusEvent)
    (st : UIState) (input : String) (status : Nat) (chunks : List String)
    (hin : jsTrim input ≠ "") (hstatus : responseOk status = false) :
    handleSubmit decode st input (.response status chunks)
      = handleSubmit decode st input (.response status []) ∧
    (handleSubmit decode st input (.response status chunks)).error
      = some connectFailedMessage ∧
    (handleSubmit decode st input (.response status chunks)).planData = none ∧
    (handleSubmit decode st input (.response status chunks)).currentAgent
      = none ∧
    (handleSubmit decode st input (.response status chunks)).agentMessage
      = "" ∧
    (handleSubmit decode st input (.response status chunks)).loading
      = false := by
  unfold handleSubmit
  simp [hin, hstatus]

/-- Witness for C5 at status 500 with a non-empty pending stream. -/
theorem transport_error_fixed_message_witness :
    jsTrim "x" ≠ "" ∧
    responseOk 500 = false ∧
    (handleSubmit miniDecode initialState "x" (.response 500 [errorFrameX])
        = handleSubmit miniDecode initialState "x" (.response 500 []) ∧
     (handleSubmit miniDecode initialState "x"
        (.response 500 [errorFrameX])).error = some connectFailedMessage ∧
     (handleSubmit miniDecode initialState "x"
        (.response 500 [errorFrameX])).planData = none ∧
     (handleSubmit miniDecode initialState "x"
        (.response 500 [errorFrameX])).currentAgent = none ∧
     (handleSubmit miniDecode initialState "x"
        (.response 500 [errorFrameX])).agentMessage = "" ∧
     (handleSubmit miniDecode initialState "x"
        (.response 500 [errorFrameX])).loading = false) :=
  ⟨by decide, by decide,
    transport_error_fixed_message miniDecode initialState "x" 500
      [errorFrameX] (by decide) (by decide)⟩

/-- C5 counterexample: the user-visible message after a non-success
status does not carry the status code — two different failure statuses
surface the identical fixed message, which contains no digit at all; the
message that does carry the status is the thrown one, which the `catch`
branch only logs. -/
theorem transport_error_status_not_surfaced :
    (handleSubmit miniDecode initialState "x" (.response 500 [])).error
      = some connectFailedMessage ∧
    (handleSubmit miniDecode initialState "x" (.response 404 [])).error
      = (handleSubmit miniDecode initialState "x" (.response 500 [])).error ∧
    connectFailedMessage.data.any Char.isDigit = false ∧
    (httpThrownMessage 500).data.any Char.isDigit = true ∧
    httpThrownMessage 500 ≠ httpThrownMessage 404 := by
  refine ⟨?_, ?_, ?_, ?_, ?_⟩ <;> decide

/-! ### C6 -/

/-- C6: when the trimmed input is empty, submit sets only the validation
message — `loading`, `planData` and the transient indicator keep their
values — and performs no network activity: the outcome is the same
whatever the fetch would have produced. -/
theorem empty_input_no_request (decode : String → Option StatusEvent)
    (st : UIState) (input : String) (f1 f2 : FetchResult)
    (h : jsTrim input = "") :
    handleSubmit decode st input f1
      = { st with error := some validationMessage } ∧
    handleSubmit decode st input f1 = handleSubmit decode st input f2 ∧
    (handleSubmit decode st input f1).loading = st.loading ∧
    (handleSubmit decode st input f1).planData = st.planData ∧
    (handleSubmit decode st input f1).currentAgent = st.currentAgent ∧
    (handleSubmit decode st input f1).agentMessage = st.agentMessage := by
  unfold handleSubmit
  simp [h]

/-- Witness for C6 on whitespace-only input, comparing a network failure
against a successful response carrying a frame. -/
theorem empty_input_no_request_witness :
    jsTrim "   " = "" ∧
    (handleSubmit miniDecode initialState "   " FetchResult.networkError
        = { initialState with error := some validationMessage } ∧
     handleSubmit miniDecode initialState "   " FetchResult.networkError
        = handleSubmit miniDecode initialState "   "
            (.response 200 [errorFrameX]) ∧
     (handleSubmit miniDecode initialState "   "
        FetchResult.networkError).loading = initialState.loading ∧
     (handleSubmit miniDecode initialState "   "
        FetchResult.networkError).planData = initialState.planData ∧
     (handleSubmit miniDecode initialState "   "
        FetchResult.networkError).currentAgent = initialState.currentAgent ∧
     (handleSubmit miniDecode initialState "   "
        FetchResult.networkError).agentMessage = initialState.agentMessage) :=
  ⟨by decide,
    empty_input_no_request miniDecode initialState "   "
      FetchResult.networkError (.response 200 [errorFrameX]) (by decide)⟩

/-! ### C7 -/

/-- Rendering preserves the number of tasks. -/
theorem renderTasks_length (total k : Nat) (ts : List DependencyTask) :
    (renderTasks total k ts).length = ts.length := by
  induction ts generalizing k with
  | nil => rfl
  | cons t rest ih => simp [renderTasks, ih]

/-- The node at position `i` of the rendered chain, for a starting index
`k`: numbered `k + i + 1`, colored from the task's priority alone, with
an arrow exactly when it is not last. -/
theorem renderTasks_getElem (total : Nat) :
    ∀ (ts : List DependencyTask) (k i : Nat) (task : DependencyTask),
      ts[i]? = some task →
      (renderTasks total k ts)[i]?
        = some { number := k + i + 1
                 color := getPriorityColor task.priority
                 name := task.name
                 duration := task.estimated_duration_days
                 category := task.category
                 hasArrow := decide (k + i < total - 1) } := by
  intro ts
  induction ts with
  | nil =>
      intro k i task h
      simp at h
  | cons t rest ih =>
      intro k i task h
      cases i with
      | zero =>
          simp at h
          subst h
          simp [renderTasks]
      | succ j =>
          simp only [List.getElem?_cons_succ] at h
          have h2 := ih (k + 1) j task h
          have e : k + (j + 1) = k + 1 + j := by omega
          rw [show renderTasks total k (t :: rest)
              = { number := k + 1
                  color := getPriorityColor t.priority
                  name := t.name
                  duration := t.estimated_duration_days
                  category := t.category
                  hasArrow := decide (k < total - 1) }
                :: renderTasks total (k + 1) rest from rfl]
          rw [List.getElem?_cons_succ, e]
          exact h2

/-- C7: the diagram renderer is a total function of the plan alone; with
the task sequence absent or empty it renders the fixed placeholder, and
with a non-empty sequence it renders one node per task in array order,
numbered by 1-based position (independent of the task's `id`, which does
not enter the node), colored solely through the fixed priority lookup
(high, medium, low, otherwise neutral gray), with an arrow after every
node except the last. -/
theorem workflow_graph_rendering (fo : Option FormattedOutput)
    (tasks : List DependencyTask) (hne : tasks ≠ []) :
    WorkflowGraph none = .placeholder "No tasks to visualize" ∧
    WorkflowGraph (some { formatted_output := fo, dependency_tasks := none })
      = .placeholder "No tasks to visualize" ∧
    WorkflowGraph (some { formatted_output := fo, dependency_tasks := some [] })
      = .placeholder "No tasks to visualize" ∧
    getPriorityColor "high" = "#ef4444" ∧
    getPriorityColor "medium" = "#f59e0b" ∧
    getPriorityColor "low" = "#10b981" ∧
    (∀ p, p ≠ "high" → p ≠ "medium" → p ≠ "low" →
      getPriorityColor p = "#6b7280") ∧
    ∃ ns,
      WorkflowGraph
          (some { formatted_output := fo, dependency_tasks := some tasks })
        = .chain ns ∧
      ns.length = tasks.length ∧
      ∀ (i : Nat) (task : DependencyTask), tasks[i]? = some task →
        ns[i]? = some { number := i + 1
                        color := getPriorityColor task.priority
                        name := task.name
                        duration := task.estimated_duration_days
                        category := task.category
                        hasArrow := decide (i < tasks.length - 1) } := by
  refine ⟨rfl, rfl, rfl, rfl, rfl, rfl, ?_, ?_⟩
  · intro p h1 h2 h3
    simp [getPriorityColor, h1, h2, h3]
  · have hl : ¬ tasks.length = 0 := by
      cases tasks with
      | nil => exact absurd rfl hne
      | cons t rest => simp
    refine ⟨renderTasks tasks.length 0 tasks, ?_, renderTasks_length _ _ _, ?_⟩
    · simp [WorkflowGraph, hl]
    · intro i task h
      have h2 := renderTasks_getElem tasks.length tasks 0 i task h
      simpa using h2

/-- Witness for C7 at the round-trip example of the specification: two
tasks (Design, high; Build, medium) render as node 1 in red and node 2 in
amber, with an arrow after the first node only. -/
theorem workflow_graph_rendering_witness :
    ([{ id := 1, name := "Design", estimated_duration_days := 2,
        category := "planning", priority := "high" },
      { id := 2, name := "Build", estimated_duration_days := 5,
        category := "dev", priority := "medium" }]
        : List DependencyTask) ≠ [] ∧
    (WorkflowGraph none = .placeholder "No tasks to visualize" ∧
     WorkflowGraph (some { formatted_output := none, dependency_tasks := none })
       = .placeholder "No tasks to visualize" ∧
     WorkflowGraph
         (some { formatted_output := none, dependency_tasks := some [] })
       = .placeholder "No tasks to visualize" ∧
     getPriorityColor "high" = "#ef4444" ∧
     getPriorityColor "medium" = "#f59e0b" ∧
     getPriorityColor "low" = "#10b981" ∧
     (∀ p, p ≠ "high" → p ≠ "medium" → p ≠ "low" →
       getPriorityColor p = "#6b7280") ∧
     ∃ ns,
       WorkflowGraph
           (some { formatted_output := none
                   dependency_tasks := some
                     [{ id := 1, name := "Design",
                        estimated_duration_days := 2,
                        category := "planning", priority := "high" },
                      { id := 2, name := "Build",
                        estimated_duration_days := 5,
                        category := "dev", priority := "medium" }] })
         = .chain ns ∧
       ns.length
         = ([{ id := 1, name := "Design", estimated_duration_days := 2,
               category := "planning", priority := "high" },
             { id := 2, name := "Build", estimated_duration_days := 5,
               category := "dev", priority := "medium" }]
              : List DependencyTask).length ∧
       ∀ (i : Nat) (task : DependencyTask),
         ([{ id := 1, name := "Design", estimated_duration_days := 2,
             category := "planning", priority := "high" },
           { id := 2, name := "Build", estimated_duration_days := 5,
             category := "dev", priority := "medium" }]
            : List DependencyTask)[i]? = some task →
         ns[i]? = some { number := i + 1
                         color := getPriorityColor task.priority
                         name := task.name
                         duration := task.estimated_duration_days
                         category := task.category
                         hasArrow := decide (i <
                           ([{ id := 1, name := "Design",
                               estimated_duration_days := 2,
                               category := "planning", priority := "high" },
                             { id := 2, name := "Build",
                               estimated_duration_days := 5,
                               category := "dev", priority := "medium" }]
                              : List DependencyTask).length - 1) }) :=
  ⟨by decide,
    workflow_graph_rendering none
      [{ id := 1, name := "Design", estimated_duration_days := 2,
         category := "planning", priority := "high" },
       { id := 2, name := "Build", estimated_duration_days := 5,
         category := "dev", priority := "medium" }] (by decide)⟩

/-! ### C8 -/

/-- C8: with no result the fixed placeholder is rendered; with a present
`formatted_output` the result is the concatenation, in order, of the
summary block, the pre-rendered markdown, and the delimited gantt block —
each section independently contributing the empty string when its field
is absent. -/
theorem format_output_concatenation :
    formatOutput none = "No output available" ∧
    (∀ (s : Option Summary) (m g : Option String)
        (tasks : Option (List DependencyTask)),
      formatOutput
          (some { formatted_output :=
                    some { summary := s, markdown := m, mermaid_gantt := g }
                  dependency_tasks := tasks })
        = summarySection s ++ markdownSection m ++ ganttSection g) ∧
    summarySection none = "" ∧
    markdownSection none = "" ∧
    ganttSection none = "" := by
  refine ⟨rfl, ?_, rfl, rfl, rfl⟩
  intro s m g tasks
  cases s <;> cases m <;> cases g <;>
    simp only [formatOutput, summarySection, markdownSection, ganttSection] <;>
    (try split_ifs) <;>
    (apply String.ext) <;>
    simp_all [String.data_append]

/-! ### C9 -/

/-- C9: a rendering exception in the WorkflowGraph subtree is absorbed by
the boundary — the page still renders, showing the inline error panel
with the exception's message in place of the diagram while the textual
report is exactly what it is when the diagram renders fine — and the
Try Again reset returns the boundary to its initial state, after which
the diagram subtree renders again. -/
theorem error_boundary_isolation (pd : Option PlanResult) (e : String)
    (g : GraphView) :
    (renderApp pd boundaryInit (.error e)).2.graph = .panel e ∧
    (renderApp pd boundaryInit (.error e)).1
      = { hasError := true, error := some e } ∧
    (renderApp pd boundaryInit (.error e)).2.report = formatOutput pd ∧
    (renderApp pd boundaryInit (.error e)).2.report
      = (renderApp pd boundaryInit (.ok g)).2.report ∧
    boundaryReset { hasError := true, error := some e } = boundaryInit ∧
    (renderApp pd (boundaryReset { hasError := true, error := some e })
        (.ok g)).2.graph
      = .content g :=
  ⟨rfl, rfl, rfl, rfl, rfl, rfl⟩

/-! ### C10 -/

/-- C10 (amended): `formatOutput` renders the placeholder whenever its
argument is absent or lacks `formatted_output` — in particular for a plan
with a non-empty `dependency_tasks` but no `formatted_output` — and a
present `formatted_output` with none of summary, markdown or
`mermaid_gantt` yields the empty string, not the placeholder; but the
"exactly when" direction fails, since a present section can render the
placeholder text coincidentally (see the counterexample). -/
theorem format_output_placeholder_cases :
    formatOutput none = "No output available" ∧
    (∀ tasks : Option (List DependencyTask),
      formatOutput (some { formatted_output := none
                           dependency_tasks := tasks })
        = "No output available") ∧
    (∀ t : DependencyTask, ∀ ts : List DependencyTask,
      formatOutput (some { formatted_output := none
                           dependency_tasks := some (t :: ts) })
        = "No output available") ∧
    (∀ tasks : Option (List DependencyTask),
      formatOutput
          (some { formatted_output :=
                    some { summary := none, markdown := none,
                           mermaid_gantt := none }
                  dependency_tasks := tasks })
        = "") ∧
    ("" : String) ≠ "No output available" :=
  ⟨rfl, fun _ => rfl, fun _ _ => rfl, fun _ => rfl, by decide⟩

/-- C10 counterexample: an argument whose `formatted_output` is present
(so outside the claimed "exactly when" set) on which `formatOutput`
nevertheless returns the placeholder string, because the markdown content
is itself that string — refuting the biconditional as stated. -/
theorem format_output_placeholder_coincidence :
    formatOutput
        (some { formatted_output :=
                  some { summary := none
                         markdown := some "No output available"
                         mermaid_gantt := none }
                dependency_tasks := none })
      = "No output available" ∧
    ({ formatted_output :=
         some { summary := none
                markdown := some "No output available"
                mermaid_gantt := none }
       dependency_tasks := none } : PlanResult).formatted_output
      ≠ none := by
  refine ⟨?_, ?_⟩ <;> decide

end TaskFlowAI
